import Mathlib

/-!
Verification development for the DocuMorph document-formatting tool
(single-file Streamlit application `main.py`).

The program's functions are shallowly embedded here:

* Python strings are `List Char`; Python slicing `s[i:j]` (which clamps
  out-of-range indices) is `pySlice`.
* Calls into external libraries (TextBlob's `correct`, difflib's
  `SequenceMatcher.get_opcodes`, pdfplumber, docx2python) are oracle
  parameters of the embedded functions; documented behaviour of those
  libraries appears as hypotheses where a claim depends on it.
* The regular-expression uses in `improved_grammar_check` are literal
  words wrapped in word boundaries (`\btheir\b` etc., case-insensitive)
  and literal substring searches, and are embedded as such.
-/

/-- Convert a Lean string literal to the `List Char` representation used
for Python strings throughout. -/
def str (s : String) : List Char := s.data

/-- Python slicing `t[i:j]` for non-negative indices: clamps at both ends,
empty when `j ≤ i`. -/
def pySlice (t : List Char) (i j : Nat) : List Char := (t.drop i).take (j - i)

/-- Lower-case a string, for the case-insensitive regex matches. -/
def lowerList (l : List Char) : List Char := l.map Char.toLower

/-- Python regex word character `\w` (ASCII fragment: letter, digit or
underscore). -/
def isWordChar (c : Char) : Bool := c.isAlpha || c.isDigit || c = '_'

/-- The apostrophe character, written by code point. -/
def apos : Char := Char.ofNat 39

/-- Does the literal word `w` (given lower-case) match in `t` at position
`p` as a whole word, case-insensitively?  This is `re.finditer` semantics
for the pattern `\bw\b` with `re.IGNORECASE`. -/
def wholeWordAt (w t : List Char) (p : Nat) : Bool :=
  decide (lowerList (pySlice t p (p + w.length)) = w) &&
  (decide (p = 0) || !isWordChar (t.getD (p - 1) ' ')) &&
  !isWordChar (t.getD (p + w.length) ' ')

/-- All match positions of `\bw\b` in `t` (case-insensitive).  Because of
the word boundaries, matches of a fixed word cannot overlap, so this set
of positions is exactly what `re.finditer` yields. -/
def findWholeWord (w t : List Char) : List Nat :=
  (List.range t.length).filter (fun p => wholeWordAt w t p)

/-- `re.search(pat, t, re.IGNORECASE)` for a literal pattern: does `pat`
occur in `t` as a substring, case-insensitively? -/
def containsCI (pat t : List Char) : Bool :=
  (List.range (t.length + 1)).any
    (fun p => decide (lowerList (pySlice t p (p + pat.length)) = lowerList pat))

/-- difflib opcode tags. -/
inductive Tag where
  | equal
  | replace
  | insert
  | delete
deriving DecidableEq

/-- One entry of `SequenceMatcher.get_opcodes()`: tag and the half-open
index ranges into the two compared strings. -/
structure Opcode where
  tag : Tag
  i1 : Nat
  i2 : Nat
  j1 : Nat
  j2 : Nat
deriving DecidableEq

/-- One issue dict produced by `improved_grammar_check`. -/
structure Issue where
  type : List Char
  original : List Char
  suggestion : List Char
  context : List Char
deriving DecidableEq

/-- The issue built for a `replace` opcode (main.py lines 80-95): context
is `text[max(0, i1-20) : min(len(text), i2+20)]`. -/
def gIssueOf (text corrected : List Char) (op : Opcode) : Issue :=
  { type := str "Grammar/Spelling",
    original := pySlice text op.i1 op.i2,
    suggestion := pySlice corrected op.j1 op.j2,
    context := pySlice text (op.i1 - 20) (min text.length (op.i2 + 20)) }

/-- The grammar/spelling issues: one per `replace` opcode, in order. -/
def grammarIssues (text corrected : List Char) (ops : List Opcode) : List Issue :=
  ops.filterMap
    (fun op => if op.tag = Tag.replace then some (gIssueOf text corrected op) else none)

/-- The `common_errors` table of main.py lines 98-104: each regex key is
the literal first word of a confusable family, each value the list of
alternatives searched for as substrings. -/
def common_errors : List (List Char × List (List Char)) :=
  [ (str "their", [str "there", str "they" ++ [apos] ++ str "re"]),
    (str "your", [str "you" ++ [apos] ++ str "re"]),
    (str "its", [str "it" ++ [apos] ++ str "s"]),
    (str "affect", [str "effect"]),
    (str "then", [str "than"]) ]

/-- The suggestion string `f"Possible confusion with '{alt}'"`. -/
def confusionSuggestion (alt : List Char) : List Char :=
  str "Possible confusion with " ++ [apos] ++ alt ++ [apos]

/-- The issue built for one whole-word match of a confusable key at
position `p` together with one alternative found in the text (main.py
lines 110-115): context is `text[max(0, p-20) : p+len(key)+20]`. -/
def cIssueOf (text w : List Char) (p : Nat) (alt : List Char) : Issue :=
  { type := str "Common Error",
    original := pySlice text p (p + w.length),
    suggestion := confusionSuggestion alt,
    context := pySlice text (p - 20) (p + w.length + 20) }

/-- The common-error issues (main.py lines 106-115): for each table entry,
for each whole-word match of its key, for each alternative present in the
text, append one issue. -/
def confusionIssues (text : List Char) : List Issue :=
  common_errors.flatMap
    (fun pr =>
      (findWholeWord pr.1 text).flatMap
        (fun p =>
          pr.2.filterMap
            (fun alt => if containsCI alt text then some (cIssueOf text pr.1 p alt) else none)))

/-- `improved_grammar_check` (main.py lines 69-120).  `correct` is the
TextBlob correction oracle; `get_opcodes` is the difflib
`SequenceMatcher(None, a, b).get_opcodes()` oracle.  The grammar issues
come first, then the common-error issues, and the result is truncated to
the first 100 entries (`issues[:100]`). -/
def improved_grammar_check (correct : List Char → List Char)
    (get_opcodes : List Char → List Char → List Opcode) (text : List Char) : List Issue :=
  let corrected := correct text
  let issues := grammarIssues text corrected (get_opcodes text corrected) ++ confusionIssues text
  issues.take 100

/-- A minimal, per-contract instantiation of the difflib oracle, used to
evaluate the embedding on concrete inputs: equal strings yield a single
`equal` opcode (exactly difflib's behaviour on equal inputs); unequal
strings yield a single whole-string `replace`. -/
def simpleOpcodes (a b : List Char) : List Opcode :=
  if a = b then [⟨Tag.equal, 0, a.length, 0, b.length⟩]
  else [⟨Tag.replace, 0, a.length, 0, b.length⟩]

/-! ## Text extractor (`extract_text_from_file`, main.py lines 123-145)

The uploaded file carries a declared MIME type and opaque content of some
type `β`.  The two extraction libraries are oracles over `β`; `none`
models the library call raising.  Besides the returned value (`none`
models Python's implicit `None`, `some` a returned string) the model
records whether a temporary on-disk file created by the call still exists
when the call returns. -/

/-- An uploaded file: declared MIME type plus opaque content. -/
structure UploadedFile (β : Type) where
  ftype : List Char
  content : β

/-- Result of one `extract_text_from_file` call: the Python return value
(`none` is Python `None`) and whether a temporary file created by the
call remains on disk after the call returns. -/
structure ExtractResult where
  result : Option (List Char)
  tmpLeft : Bool
deriving DecidableEq

/-- MIME type dispatched to the PDF branch. -/
def MIME_PDF : List Char := str "application/pdf"

/-- MIME type dispatched to the DOCX branch. -/
def MIME_DOCX : List Char :=
  str "application/vnd.openxmlformats-officedocument.wordprocessingml.document"

/-- MIME type dispatched to the DOCX branch (legacy Word). -/
def MIME_DOC : List Char := str "application/msword"

/-- The PDF page loop (main.py lines 128-132): pages whose extracted text
is `None` or empty are skipped; the rest are concatenated, each followed
by one blank line. -/
def pdfConcat (pages : List (Option (List Char))) : List Char :=
  pages.foldl
    (fun acc pt =>
      match pt with
      | some t => if t = [] then acc else acc ++ t ++ str "\n\n"
      | none => acc) []

/-- Python `str.strip()`: drop whitespace from both ends. -/
def pyStrip (l : List Char) : List Char :=
  ((l.dropWhile Char.isWhitespace).reverse.dropWhile Char.isWhitespace).reverse

/-- `extract_text_from_file`.  `pdfO` models `pdfplumber` (`none` = the
open/extract raises; `some pages` = the per-page `extract_text` results).
`docxO` models `docx2python(path).text` on the temporary copy of the
file's bytes (`none` = it raises).

Control flow of the source: the PDF branch creates no temporary file; the
DOCX/MSWORD branch writes a `NamedTemporaryFile(delete=False)`, extracts,
then calls `os.unlink` and returns — so when the extraction raises, the
`unlink` on line 141 is skipped, the exception is caught on line 143 and
`""` is returned with the temporary file still on disk.  A MIME type
matching neither branch falls through the `if`/`elif` and returns
Python `None`. -/
def extract_text_from_file {β : Type} (pdfO : β → Option (List (Option (List Char))))
    (docxO : β → Option (List Char)) (f : UploadedFile β) : ExtractResult :=
  if f.ftype = MIME_PDF then
    match pdfO f.content with
    | some pages => { result := some (pyStrip (pdfConcat pages)), tmpLeft := false }
    | none => { result := some [], tmpLeft := false }
  else if f.ftype = MIME_DOCX ∨ f.ftype = MIME_DOC then
    match docxO f.content with
    | some t => { result := some t, tmpLeft := false }
    | none => { result := some [], tmpLeft := true }
  else
    { result := none, tmpLeft := false }

/-! ## Formatting engine (`DocuMorphEngine`, main.py lines 148-228)

Only the state the styling operations touch is modelled: paragraphs with
their runs, per-paragraph line spacing and alignment, and per-section
page margins.  python-docx length values are EMU integers: `Inches(x)`
is `Emu(int(x * 914400))` and `Pt(x)` is `Emu(int(x * 12700))`. -/

/-- Python `int()` on a rational: truncation toward zero. -/
def pyInt (q : ℚ) : ℤ := if q < 0 then -((-q).floor) else q.floor

/-- python-docx `Inches`: EMU value of a length given in inches. -/
def Inches (x : ℚ) : ℤ := pyInt (x * 914400)

/-- python-docx `Pt`: EMU value of a length given in points. -/
def Pt (x : ℚ) : ℤ := pyInt (x * 12700)

/-- `WD_ALIGN_PARAGRAPH` members used by the program. -/
inductive WdAlign where
  | left
  | center
  | right
  | justify
deriving DecidableEq

/-- One text run: its text plus the font name/size properties
(`none` = property not explicitly set). -/
structure Run where
  text : List Char
  font_name : Option (List Char)
  font_size : Option ℤ
deriving DecidableEq

/-- One paragraph: its runs plus paragraph-level formatting properties. -/
structure Paragraph where
  runs : List Run
  line_spacing : Option ℚ
  alignment : Option WdAlign
deriving DecidableEq

/-- Page margins of one section, in EMU. -/
structure Margins where
  top : ℤ
  bottom : ℤ
  left : ℤ
  right : ℤ
deriving DecidableEq

/-- One document section (only its margins are touched by the claims). -/
structure Sec where
  margins : Margins
deriving DecidableEq

/-- The document state the engine mutates. -/
structure Document where
  paragraphs : List Paragraph
  sections : List Sec
deriving DecidableEq

/-- The visible text of a paragraph: concatenation of its runs' text. -/
def paraText (p : Paragraph) : List Char := (p.runs.map Run.text).flatten

/-- `DocuMorphEngine.set_font` (lines 152-156): for every run of every
paragraph, overwrite font name and size. -/
def set_font (d : Document) (font_name : List Char) (font_size : ℚ) : Document :=
  { d with paragraphs := d.paragraphs.map (fun para =>
      { para with runs := para.runs.map (fun r =>
          { r with font_name := some font_name, font_size := some (Pt font_size) }) }) }

/-- `DocuMorphEngine.set_line_spacing` (lines 158-160): overwrite line
spacing of every paragraph. -/
def set_line_spacing (d : Document) (spacing : ℚ) : Document :=
  { d with paragraphs := d.paragraphs.map (fun para =>
      { para with line_spacing := some spacing }) }

/-- The `align_map.get(alignment, WD_ALIGN_PARAGRAPH.LEFT)` lookup of
`set_alignment` (lines 163-170): the four exact keys, default LEFT. -/
def align_map_get (alignment : List Char) : WdAlign :=
  if alignment = str "Left" then WdAlign.left
  else if alignment = str "Center" then WdAlign.center
  else if alignment = str "Right" then WdAlign.right
  else if alignment = str "Justify" then WdAlign.justify
  else WdAlign.left

/-- `DocuMorphEngine.set_alignment` (lines 162-170): overwrite the
alignment of every paragraph with the looked-up value. -/
def set_alignment (d : Document) (alignment : List Char) : Document :=
  { d with paragraphs := d.paragraphs.map (fun para =>
      { para with alignment := some (align_map_get alignment) }) }

/-- `DocuMorphEngine.set_margins` (lines 172-177): mutate the margins of
`sections[0]`.  On a document with no sections the subscript raises
(`none`); python-docx documents always have at least one section. -/
def set_margins (d : Document) (top bottom left right : ℚ) : Option Document :=
  match d.sections with
  | [] => none
  | s :: rest =>
      some { d with sections :=
        { s with margins :=
            { top := Inches top, bottom := Inches bottom,
              left := Inches left, right := Inches right } } :: rest }

/-! ## Template manager (main.py lines 231-251)

The filesystem under the fixed `templates` directory is a map from path
to stored content.  `json.dump` followed by `json.load` of a
JSON-representable dict returns an equal value (the json library's
contract), so file contents are modelled as the parsed JSON values
themselves. -/

/-- A JSON value as produced by `json.load`. -/
inductive Json where
  | num : ℚ → Json
  | jstr : List Char → Json
  | arr : List Json → Json
  | obj : List (List Char × Json) → Json

/-- The filesystem visible to the template manager: path to content. -/
def FileSys : Type := List Char → Option Json

/-- The fixed template directory. -/
def TEMPLATE_DIR : List Char := str "templates"

/-- `os.path.join(TEMPLATE_DIR, f"{name}.json")`. -/
def templatePath (name : List Char) : List Char :=
  TEMPLATE_DIR ++ str "/" ++ name ++ str ".json"

/-- `save_template` (lines 244-246): write the serialized config to the
template path, overwriting any existing file. -/
def save_template (fs : FileSys) (name : List Char) (cfg : Json) : FileSys :=
  fun p => if p = templatePath name then some cfg else fs p

/-- `load_template` (lines 237-242): if the template path exists, parse
and return its content, else return Python `None`. -/
def load_template (fs : FileSys) (name : List Char) : Option Json :=
  match fs (templatePath name) with
  | some j => some j
  | none => none

/-- The StyleConfig record: the exact keys the UI saves as a preset
(main.py lines 333-350). -/
structure StyleConfig where
  font_name : List Char
  font_size : ℚ
  line_spacing : ℚ
  alignment : List Char
  margins : List ℚ
  header_text : List Char
  footer_text : List Char
  hf_size : ℚ
  hf_align : List Char
  logo_width : ℚ
  logo_height : ℚ

/-- The JSON object serialized for a StyleConfig, with the source's key
order. -/
def StyleConfig.toJson (c : StyleConfig) : Json :=
  Json.obj
    [ (str "font_name", Json.jstr c.font_name),
      (str "font_size", Json.num c.font_size),
      (str "line_spacing", Json.num c.line_spacing),
      (str "alignment", Json.jstr c.alignment),
      (str "margins", Json.arr (c.margins.map Json.num)),
      (str "header_text", Json.jstr c.header_text),
      (str "footer_text", Json.jstr c.footer_text),
      (str "hf_size", Json.num c.hf_size),
      (str "hf_align", Json.jstr c.hf_align),
      (str "logo_width", Json.num c.logo_width),
      (str "logo_height", Json.num c.logo_height) ]

/-! ## Claims -/

/-- C6: for every input text and every behaviour of the correction and
diff libraries, the issue list returned by `improved_grammar_check` never
has more than 100 entries (the `issues[:100]` cap). -/
theorem C6_issue_count_capped (correct : List Char → List Char)
    (get_opcodes : List Char → List Char → List Opcode) (text : List Char) :
    (improved_grammar_check correct get_opcodes text).length ≤ 100 := by
  unfold improved_grammar_check
  simp [List.length_take]

/-- C4: loading a preset immediately after saving it returns exactly the
saved StyleConfig: `load_template name` after `save_template name cfg`
yields the stored configuration object unchanged, for every prior
filesystem state, every name and every config. -/
theorem C4_save_load_round_trip (fs : FileSys) (name : List Char) (cfg : StyleConfig) :
    load_template (save_template fs name cfg.toJson) name = some cfg.toJson := by
  unfold load_template save_template
  simp

/-- C1: the claim that the temporary DOCX copy is deleted on every
failure path is violated by the code: when `docx2python` raises, the
`os.unlink` on line 141 is skipped and the temporary file remains on disk
(`tmpLeft = true`) for both DOCX-family MIME types, while the success
path does delete it. -/
theorem C1_docx_failure_leaks_tmp :
    (extract_text_from_file (fun _ : Unit => none) (fun _ : Unit => none)
        { ftype := MIME_DOC, content := () }).tmpLeft = true ∧
    (extract_text_from_file (fun _ : Unit => none) (fun _ : Unit => none)
        { ftype := MIME_DOCX, content := () }).tmpLeft = true ∧
    (extract_text_from_file (fun _ : Unit => none) (fun _ : Unit => some (str "ok"))
        { ftype := MIME_DOC, content := () }).tmpLeft = false := by
  decide

/-- C2 counterexample: on an unsupported MIME type the extractor returns
Python `None` (modelled `none`), not the empty string, so the claim "returns
empty text (the empty string)" fails at the concrete input `text/plain`. -/
theorem C2_unsupported_returns_none :
    (extract_text_from_file (fun _ : Unit => none) (fun _ : Unit => none)
        { ftype := str "text/plain", content := () }).result = none ∧
    (none : Option (List Char)) ≠ some (str "") := by
  decide

/-- C2 amended: for every uploaded file whose declared MIME type is not
PDF, DOCX or MSWORD, the extractor returns Python `None` (no text), does
not raise, and leaves no temporary file. -/
theorem C2_amended_unsupported_yields_no_text {β : Type}
    (pdfO : β → Option (List (Option (List Char)))) (docxO : β → Option (List Char))
    (f : UploadedFile β) (h1 : f.ftype ≠ MIME_PDF) (h2 : f.ftype ≠ MIME_DOCX)
    (h3 : f.ftype ≠ MIME_DOC) :
    extract_text_from_file pdfO docxO f = { result := none, tmpLeft := false } := by
  have h23 : ¬(f.ftype = MIME_DOCX ∨ f.ftype = MIME_DOC) := by
    intro h
    rcases h with h | h
    · exact h2 h
    · exact h3 h
  unfold extract_text_from_file
  rw [if_neg h1, if_neg h23]

/-- C2 amended, witness: the amended statement instantiated at a concrete
`text/plain` upload. -/
theorem C2_amended_witness :
    extract_text_from_file (fun _ : Unit => none) (fun _ : Unit => none)
        { ftype := str "text/plain", content := () } =
      { result := none, tmpLeft := false } :=
  C2_amended_unsupported_yields_no_text _ _ _ (by decide) (by decide) (by decide)

/-- A concrete run used to instantiate the engine theorems. -/
def runW : Run := { text := str "hi", font_name := none, font_size := none }

/-- A concrete paragraph used to instantiate the engine theorems. -/
def paraW0 : Paragraph := { runs := [runW], line_spacing := none, alignment := none }

/-- First section of the concrete two-section document. -/
def secW : Sec := { margins := { top := 0, bottom := 0, left := 0, right := 0 } }

/-- Second section of the concrete two-section document. -/
def secW2 : Sec := { margins := { top := 1, bottom := 2, left := 3, right := 4 } }

/-- A concrete document with one paragraph and two sections. -/
def docW : Document := { paragraphs := [paraW0], sections := [secW, secW2] }

/-- C8: for every document and valid StyleConfig values, `set_font`,
`set_line_spacing` and `set_alignment` each keep the paragraph count and
the text of every paragraph unchanged while applying their mutation to
every one of the N paragraphs. -/
theorem C8_styling_preserves_text (d : Document) (fn : List Char)
    (fsz spacing : ℚ) (al : List Char) :
    (set_font d fn fsz).paragraphs.length = d.paragraphs.length ∧
    (set_font d fn fsz).paragraphs.map paraText = d.paragraphs.map paraText ∧
    (set_line_spacing d spacing).paragraphs.length = d.paragraphs.length ∧
    (set_line_spacing d spacing).paragraphs.map paraText = d.paragraphs.map paraText ∧
    (set_alignment d al).paragraphs.length = d.paragraphs.length ∧
    (set_alignment d al).paragraphs.map paraText = d.paragraphs.map paraText ∧
    (∀ p ∈ (set_line_spacing d spacing).paragraphs, p.line_spacing = some spacing) ∧
    (∀ p ∈ (set_alignment d al).paragraphs, p.alignment = some (align_map_get al)) ∧
    (∀ p ∈ (set_font d fn fsz).paragraphs, ∀ r ∈ p.runs,
        r.font_name = some fn ∧ r.font_size = some (Pt fsz)) := by
  refine ⟨?_, ?_, ?_, ?_, ?_, ?_, ?_, ?_, ?_⟩
  · simp [set_font]
  · simp [set_font, paraText, List.map_map, Function.comp_def]
  · simp [set_line_spacing]
  · simp [set_line_spacing, paraText, List.map_map, Function.comp_def]
  · simp [set_alignment]
  · simp [set_alignment, paraText, List.map_map, Function.comp_def]
  · intro p hp
    simp only [set_line_spacing, List.mem_map] at hp
    obtain ⟨q, hq, rfl⟩ := hp
    rfl
  · intro p hp
    simp only [set_alignment, List.mem_map] at hp
    obtain ⟨q, hq, rfl⟩ := hp
    rfl
  · intro p hp r hr
    simp only [set_font, List.mem_map] at hp
    obtain ⟨q, hq, rfl⟩ := hp
    simp only [List.mem_map] at hr
    obtain ⟨r0, hr0, rfl⟩ := hr
    exact ⟨rfl, rfl⟩

/-- C8 witness: the paragraph-text preservation instantiated on a
concrete document and configuration. -/
theorem C8_styling_preserves_text_witness :
    (set_font docW (str "Arial") 14).paragraphs.map paraText =
      docW.paragraphs.map paraText :=
  (C8_styling_preserves_text docW (str "Arial") 14 (3/2) (str "Center")).2.1

/-- C9: `set_alignment` sets every paragraph's alignment to the value
looked up in `align_map`; when the value is none of Left, Center, Right,
Justify, every paragraph's alignment becomes LEFT (the `dict.get`
default), not an error. -/
theorem C9_alignment_fallback (d : Document) (al : List Char) :
    (∀ p ∈ (set_alignment d al).paragraphs, p.alignment = some (align_map_get al)) ∧
    (al ∉ [str "Left", str "Center", str "Right", str "Justify"] →
      ∀ p ∈ (set_alignment d al).paragraphs, p.alignment = some WdAlign.left) := by
  have hall : ∀ p ∈ (set_alignment d al).paragraphs,
      p.alignment = some (align_map_get al) := by
    intro p hp
    simp only [set_alignment, List.mem_map] at hp
    obtain ⟨q, hq, rfl⟩ := hp
    rfl
  refine ⟨hall, fun hal p hp => ?_⟩
  have hs := hal
  simp only [List.mem_cons, List.not_mem_nil, or_false, not_or] at hs
  obtain ⟨h1, h2, h3, h4⟩ := hs
  have hleft : align_map_get al = WdAlign.left := by
    unfold align_map_get
    rw [if_neg h1, if_neg h2, if_neg h3, if_neg h4]
  rw [hall p hp, hleft]

/-- The single paragraph of `docW` after aligning with an unrecognized
value: alignment has fallen back to LEFT. -/
def paraWleft : Paragraph := { runs := [runW], line_spacing := none, alignment := some WdAlign.left }

/-- C9 witness: the fallback branch instantiated at the unrecognized
value "Top" on a concrete document. -/
theorem C9_alignment_fallback_witness : paraWleft.alignment = some WdAlign.left :=
  (C9_alignment_fallback docW (str "Top")).2 (by decide) paraWleft (by decide)

/-- C5: whenever `set_margins` succeeds it leaves the paragraphs alone,
keeps the section count, overwrites the margins of section 0 with the
EMU conversions of the four inch values, and leaves every section other
than the first exactly unchanged. -/
theorem C5_margins_first_section_only (d dres : Document) (t b l r : ℚ)
    (h : set_margins d t b l r = some dres) :
    dres.paragraphs = d.paragraphs ∧
    dres.sections.length = d.sections.length ∧
    dres.sections.head? = some { margins :=
      { top := Inches t, bottom := Inches b, left := Inches l, right := Inches r } } ∧
    ∀ i, 0 < i → dres.sections[i]? = d.sections[i]? := by
  unfold set_margins at h
  cases hs : d.sections with
  | nil =>
      rw [hs] at h
      exact absurd h (by simp)
  | cons s rest =>
      rw [hs] at h
      simp only [Option.some.injEq] at h
      subst h
      refine ⟨rfl, by simp [hs], rfl, ?_⟩
      intro i hi
      cases i with
      | zero => omega
      | succ j => simp

/-- The result of `set_margins docW 1 1 1 1`. -/
def docW5 : Document :=
  { paragraphs := [paraW0],
    sections := [{ margins :=
      { top := Inches 1, bottom := Inches 1, left := Inches 1, right := Inches 1 } }, secW2] }

/-- C5 witness: on the concrete two-section document, the second section
is untouched by `set_margins`. -/
theorem C5_margins_first_section_only_witness :
    docW5.sections[1]? = docW.sections[1]? :=
  (C5_margins_first_section_only docW docW5 1 1 1 1 rfl).2.2.2 1 (by decide)

/-- C3 counterexample: for the input "their there" whose corrected form
is itself (identity correction oracle, and the diff of equal strings has
no replace opcode), the checker still returns a non-empty issue list,
because the confusable-pair scan fires on "their"/"there". -/
theorem C3_zero_diff_counterexample :
    (fun t : List Char => t) (str "their there") = str "their there" ∧
    (∀ op ∈ simpleOpcodes (str "their there") (str "their there"), op.tag ≠ Tag.replace) ∧
    improved_grammar_check (fun t => t) simpleOpcodes (str "their there") ≠ [] := by
  exact ⟨rfl, by decide, by decide⟩

/-- C3 amended: on text identical to its corrected form (and with the
diff of equal strings containing no replace opcode, as difflib
guarantees), the checker returns exactly the capped common-error issue
list: no Grammar/Spelling issue appears, but confusable-pair issues may;
the output is empty only when that scan also finds nothing. -/
theorem C3_zero_diff_only_confusions (correct : List Char → List Char)
    (get_opcodes : List Char → List Char → List Opcode) (text : List Char)
    (hc : correct text = text)
    (hops : ∀ op ∈ get_opcodes text text, op.tag ≠ Tag.replace) :
    improved_grammar_check correct get_opcodes text = (confusionIssues text).take 100 := by
  have hg : grammarIssues text (correct text) (get_opcodes text (correct text)) = [] := by
    rw [hc]
    exact List.filterMap_eq_nil_iff.2 (fun op hop => by rw [if_neg (hops op hop)])
  show (grammarIssues text (correct text) (get_opcodes text (correct text))
      ++ confusionIssues text).take 100 = _
  rw [hg, List.nil_append]

/-- C3 amended, witness: the amended statement instantiated at the
concrete zero-diff input "their there". -/
theorem C3_zero_diff_only_confusions_witness :
    improved_grammar_check (fun t => t) simpleOpcodes (str "their there") =
      (confusionIssues (str "their there")).take 100 :=
  C3_zero_diff_only_confusions (fun t => t) simpleOpcodes (str "their there") rfl (by decide)

/-- C7 counterexample: in "there they're" two words of the confusable
family their/there/they're co-occur, yet the checker returns no issue at
all: the scan only iterates regex matches of the first word `their`,
which does not occur, so co-occurrence "in either direction" does not
suffice. -/
theorem C7_cooccurrence_counterexample :
    0 ∈ findWholeWord (str "there") (str "there they" ++ [apos] ++ str "re") ∧
    containsCI (str "they" ++ [apos] ++ str "re")
      (str "there they" ++ [apos] ++ str "re") = true ∧
    improved_grammar_check (fun t => t) simpleOpcodes
      (str "there they" ++ [apos] ++ str "re") = [] := by
  exact ⟨by decide, by decide, by decide⟩

/-- C7 amended: when the first-listed word of a confusable entry occurs
as a whole word at some position and one of its listed alternatives
occurs case-insensitively as a substring, and the total issue count does
not exceed the 100 cap, the checker output contains a Common Error issue
for that pair. -/
theorem C7_keyword_cooccurrence_emits (correct : List Char → List Char)
    (get_opcodes : List Char → List Char → List Opcode)
    (text key alt : List Char) (alts : List (List Char)) (p : Nat)
    (hk : (key, alts) ∈ common_errors) (ha : alt ∈ alts)
    (hp : p ∈ findWholeWord key text) (hc : containsCI alt text = true)
    (hlen : (grammarIssues text (correct text) (get_opcodes text (correct text))).length
        + (confusionIssues text).length ≤ 100) :
    ∃ iss ∈ improved_grammar_check correct get_opcodes text,
      iss.type = str "Common Error" ∧ iss.suggestion = confusionSuggestion alt := by
  have hmem : cIssueOf text key p alt ∈ confusionIssues text := by
    unfold confusionIssues
    refine List.mem_flatMap.2 ⟨(key, alts), hk, ?_⟩
    refine List.mem_flatMap.2 ⟨p, hp, ?_⟩
    exact List.mem_filterMap.2 ⟨alt, ha, by rw [if_pos hc]⟩
  have hmem2 : cIssueOf text key p alt ∈
      grammarIssues text (correct text) (get_opcodes text (correct text))
        ++ confusionIssues text := List.mem_append_right _ hmem
  refine ⟨cIssueOf text key p alt, ?_, rfl, rfl⟩
  show _ ∈ (grammarIssues text (correct text) (get_opcodes text (correct text))
      ++ confusionIssues text).take 100
  rw [List.take_of_length_le (by rw [List.length_append]; exact hlen)]
  exact hmem2

/-- C7 amended, witness: instantiated on "their there" with the pair
(their, there) at position 0. -/
theorem C7_keyword_cooccurrence_emits_witness :
    ∃ iss ∈ improved_grammar_check (fun t => t) simpleOpcodes (str "their there"),
      iss.type = str "Common Error" ∧ iss.suggestion = confusionSuggestion (str "there") :=
  C7_keyword_cooccurrence_emits (fun t => t) simpleOpcodes (str "their there")
    (str "their") (str "there") [str "there", str "they" ++ [apos] ++ str "re"] 0
    (by decide) (by decide) (by decide) (by decide) (by decide)

/-- Splitting a Python slice at an interior index. -/
theorem pySlice_split (t : List Char) (a b c : Nat) (h1 : a ≤ b) (h2 : b ≤ c) :
    pySlice t a c = pySlice t a b ++ pySlice t b c := by
  have hd : (t.drop a).drop (b - a) = t.drop b := by
    rw [List.drop_drop]
    congr 1
    omega
  unfold pySlice
  have hc : c - a = (b - a) + (c - b) := by omega
  rw [hc, List.take_add, hd]

/-- Length of a Python slice. -/
theorem pySlice_length (t : List Char) (a b : Nat) :
    (pySlice t a b).length = min (b - a) (t.length - a) := by
  unfold pySlice
  simp [List.length_take]

/-- A Python slice is a contiguous substring of the sliced list. -/
theorem pySlice_contiguous (t : List Char) (a b : Nat) : pySlice t a b <:+: t := by
  refine ⟨t.take a, (t.drop a).drop (b - a), ?_⟩
  rw [List.append_assoc]
  unfold pySlice
  rw [List.take_append_drop, List.take_append_drop]

/-- Every issue emitted by the confusable-pair scan carries the type
string "Common Error". -/
theorem confusionIssues_type (text : List Char) :
    ∀ iss ∈ confusionIssues text, iss.type = str "Common Error" := by
  intro iss h
  unfold confusionIssues at h
  obtain ⟨pr, hpr, h⟩ := List.mem_flatMap.1 h
  obtain ⟨p, hp, h⟩ := List.mem_flatMap.1 h
  obtain ⟨alt, halt, h⟩ := List.mem_filterMap.1 h
  by_cases hcb : containsCI alt text = true
  · rw [if_pos hcb] at h
    injection h with h
    subst h
    rfl
  · rw [if_neg hcb] at h
    exact Option.noConfusion h

/-- C10: every Grammar/Spelling issue's context is a contiguous substring
of the input that decomposes as at most 20 characters before the flagged
original span, the span itself, and at most 20 characters after it; in
particular its length is at most the span length plus 40.  The hypothesis
is difflib's documented guarantee that opcode indices are monotone and
within both strings. -/
theorem C10_grammar_context_window (correct : List Char → List Char)
    (get_opcodes : List Char → List Char → List Opcode) (text : List Char)
    (hvalid : ∀ op ∈ get_opcodes text (correct text), op.i1 ≤ op.i2 ∧ op.i2 ≤ text.length)
    (iss : Issue) (hmem : iss ∈ improved_grammar_check correct get_opcodes text)
    (ht : iss.type = str "Grammar/Spelling") :
    iss.context <:+: text ∧
    (∃ pre suf, iss.context = pre ++ iss.original ++ suf ∧
      pre.length ≤ 20 ∧ suf.length ≤ 20) ∧
    iss.context.length ≤ iss.original.length + 40 := by
  have hmem2 : iss ∈ grammarIssues text (correct text) (get_opcodes text (correct text))
      ++ confusionIssues text := List.mem_of_mem_take hmem
  rcases List.mem_append.1 hmem2 with hg | hcon
  · obtain ⟨op, hop, heq⟩ := List.mem_filterMap.1 hg
    by_cases htag : op.tag = Tag.replace
    · rw [if_pos htag] at heq
      injection heq with heq
      subst heq
      obtain ⟨hi12, hi2len⟩ := hvalid op hop
      simp only [gIssueOf]
      refine ⟨pySlice_contiguous text (op.i1 - 20) (min text.length (op.i2 + 20)), ?_, ?_⟩
      · refine ⟨pySlice text (op.i1 - 20) op.i1,
          pySlice text op.i2 (min text.length (op.i2 + 20)), ?_, ?_, ?_⟩
        · rw [pySlice_split text (op.i1 - 20) op.i1 (min text.length (op.i2 + 20))
              (by omega) (by omega),
            pySlice_split text op.i1 op.i2 (min text.length (op.i2 + 20)) hi12 (by omega),
            List.append_assoc]
        · rw [pySlice_length]
          omega
        · rw [pySlice_length]
          omega
      · rw [pySlice_length, pySlice_length]
        omega
    · rw [if_neg htag] at heq
      exact Option.noConfusion heq
  · have hct := confusionIssues_type text iss hcon
    rw [hct] at ht
    exact absurd ht (by decide)

/-- The Grammar/Spelling issue produced on the concrete input
"helXo world" when the correction oracle yields "hello world" and the
diff is a whole-string replace. -/
def issW : Issue :=
  { type := str "Grammar/Spelling",
    original := str "helXo world",
    suggestion := str "hello world",
    context := str "helXo world" }

/-- C10 witness: the context-window statement instantiated at a concrete
input, correction oracle and diff oracle. -/
theorem C10_grammar_context_window_witness :
    issW.context <:+: str "helXo world" ∧
    (∃ pre suf, issW.context = pre ++ issW.original ++ suf ∧
      pre.length ≤ 20 ∧ suf.length ≤ 20) ∧
    issW.context.length ≤ issW.original.length + 40 :=
  C10_grammar_context_window (fun _ => str "hello world") simpleOpcodes
    (str "helXo world") (by decide) issW (by decide) (by decide)
